import Mathlib

/-!
Verification development for the RED4ext-macos runtime hooking engine.

The embedding follows the source files:
- src/dll/Platform/Hooking.cpp — detour primitives; the file compiles in
  "Frida Gadget" mode (RED4EXT_USE_FRIDA_GADGET is defined at the top of the
  macOS section) and also contains a native direct-patching mode behind the
  same define; both modes are embedded below.
- src/dll/DetourTransaction.cpp — the DetourTransaction state machine.
- src/dll/GameStateHook.hpp — vtable lifecycle hook with per-slot
  shouldExecute suppression.
- src/dll/Systems/HookingSystem.cpp — the owner-keyed hook registry.

Pointers are modelled as natural numbers with 0 as the null pointer; byte
memory is a function from addresses to byte values.  NO_ERROR is 0 and the
error return of the detour primitives is -1, as in the source.
-/

namespace RED4ext

/-- Pointers are addresses; 0 models the null pointer. -/
abbrev Ptr := Nat

/-! ## Frida Gadget mode primitives (Hooking.cpp, compiled mode)

In this mode the globals are just g_inTransaction and g_hookCount. -/

/-- Globals of Frida Gadget mode: g_inTransaction and g_hookCount. -/
structure FridaState where
  inTransaction : Bool
  hookCount : Nat
deriving DecidableEq, Repr

/-- DetourTransactionBegin (Frida mode): fails with -1 if a transaction is
already open, otherwise sets g_inTransaction. -/
def fridaTransactionBegin (s : FridaState) : Int × FridaState :=
  if s.inTransaction then (-1, s)
  else (0, { s with inTransaction := true })

/-- DetourTransactionCommit (Frida mode): fails with -1 if no transaction is
open, otherwise clears g_inTransaction. -/
def fridaTransactionCommit (s : FridaState) : Int × FridaState :=
  if s.inTransaction then (0, { s with inTransaction := false })
  else (-1, s)

/-- DetourTransactionAbort (Frida mode): fails with -1 if no transaction is
open, otherwise clears g_inTransaction and resets g_hookCount to 0. -/
def fridaTransactionAbort (s : FridaState) : Int × FridaState :=
  if s.inTransaction then (0, { inTransaction := false, hookCount := 0 })
  else (-1, s)

/-- DetourAttach (Frida mode).  Arguments: the current value of *ppPointer
(the target) and the detour.  Returns the error code, the new global state
and the value left in *ppPointer.  The source intentionally does not modify
*ppPointer in this mode ("the original pointer is preserved"); it only
increments g_hookCount. -/
def fridaDetourAttach (s : FridaState) (pp pDetour : Ptr) : Int × FridaState × Ptr :=
  if !s.inTransaction then (-1, s, pp)
  else if pp = 0 ∨ pDetour = 0 then (-1, s, pp)
  else (0, { s with hookCount := s.hookCount + 1 }, pp)

/-- DetourDetach (Frida mode): only checks that a transaction is open;
detaching itself is handled by Frida's script lifecycle. -/
def fridaDetourDetach (s : FridaState) (pp _pDetour : Ptr) : Int × FridaState × Ptr :=
  if !s.inTransaction then (-1, s, pp)
  else (0, s, pp)

/-! ## Native mode primitives (Hooking.cpp, direct patching mode) -/

/-- Byte memory: value of the byte stored at each address. -/
abbrev Mem := Nat → Nat

/-- Little-endian bytes of a 64-bit literal. -/
def le64 (n : Nat) : List Nat :=
  (List.range 8).map fun i => n / 256 ^ i % 256

/-- The 16-byte ARM64 jump sequence written by the source: LDR x16, #8
(0x58000050), BR x16 (0xD61F0200), then the 8-byte literal.  The same
sequence is used for the trampoline (literal = target) and for the patch at
the target (literal = detour). -/
def jumpSeq (lit : Ptr) : List Nat :=
  [0x50, 0x00, 0x00, 0x58, 0x00, 0x02, 0x1F, 0xD6] ++ le64 lit

/-- Write a list of bytes to memory starting at an address. -/
def writeBytes (m : Mem) (a : Nat) : List Nat → Mem
  | [] => m
  | b :: bs => writeBytes (fun x => if x = a then b else m x) (a + 1) bs

/-- Read n bytes of memory starting at an address. -/
def readBytes (m : Mem) (a n : Nat) : List Nat :=
  (List.range n).map fun i => m (a + i)

/-- One entry of g_trampolines: target, detour and the trampoline memory. -/
structure Tramp where
  target : Ptr
  detour : Ptr
  mem : Ptr
deriving DecidableEq, Repr

/-- Globals of native mode: g_inTransaction, g_trampolines, the process
memory, and a fresh-address supply standing for mmap. -/
structure NativeState where
  inTransaction : Bool
  trampolines : List Tramp
  memory : Mem
  nextAlloc : Ptr

/-- DetourTransactionBegin (native mode). -/
def nativeTransactionBegin (s : NativeState) : Int × NativeState :=
  if s.inTransaction then (-1, s)
  else (0, { s with inTransaction := true })

/-- DetourTransactionCommit (native mode). -/
def nativeTransactionCommit (s : NativeState) : Int × NativeState :=
  if s.inTransaction then (0, { s with inTransaction := false })
  else (-1, s)

/-- DetourTransactionAbort (native mode): clears the pending trampolines and
closes the transaction.  It does not undo any patch already written to a
target. -/
def nativeTransactionAbort (s : NativeState) : Int × NativeState :=
  if s.inTransaction then (0, { s with inTransaction := false, trampolines := [] })
  else (-1, s)

/-- DetourAttach (native mode).  Checks the transaction and null pointers,
allocates trampoline memory at a fresh address, writes the jump sequence to
the trampoline (literal = target) and the patch at the target
(literal = detour), records the trampoline, and leaves the trampoline
address in *ppPointer.  ProtectMemory and cache invalidation do not change
byte contents and are not represented. -/
def nativeDetourAttach (s : NativeState) (pp pDetour : Ptr) : Int × NativeState × Ptr :=
  if !s.inTransaction then (-1, s, pp)
  else if pp = 0 ∨ pDetour = 0 then (-1, s, pp)
  else
    let tmem := s.nextAlloc
    let m1 := writeBytes s.memory tmem (jumpSeq pp)
    let m2 := writeBytes m1 pp (jumpSeq pDetour)
    (0,
      { inTransaction := s.inTransaction,
        trampolines := s.trampolines ++ [⟨pp, pDetour, tmem⟩],
        memory := m2,
        nextAlloc := s.nextAlloc + 4096 },
      tmem)

/-- DetourDetach (native mode).  *ppPointer holds the trampoline address; the
matching record is looked up and erased and *ppPointer is set back to the
target.  No byte of the target is written back: the source only changes the
page protection back and forth around a comment admitting that the original
bytes were never saved. -/
def nativeDetourDetach (s : NativeState) (pp pDetour : Ptr) : Int × NativeState × Ptr :=
  if !s.inTransaction then (-1, s, pp)
  else if pp = 0 ∨ pDetour = 0 then (-1, s, pp)
  else
    match s.trampolines.find? (fun t => t.mem = pp ∧ t.detour = pDetour) with
    | none => (-1, s, pp)
    | some t =>
      (0,
        { s with trampolines := s.trampolines.eraseP (fun u => u.mem = pp ∧ u.detour = pDetour) },
        t.target)

/-! ## DetourTransaction state machine (DetourTransaction.cpp)

The State enum and the transitions of the class, instantiated once over the
Frida-mode primitives (the compiled configuration) and once over the native
primitives. -/

/-- DetourTransaction::State. -/
inductive TxState where
  | invalid
  | started
  | committed
  | aborted
  | failed
deriving DecidableEq, Repr

/-- A DetourTransaction object: its m_state field. -/
structure DTx where
  state : TxState
deriving DecidableEq, Repr

namespace Frida

/-- DetourTransaction constructor over the Frida primitives: Begin; on
success the state becomes Started, otherwise it stays Invalid. -/
def mkTx (g : FridaState) : DTx × FridaState :=
  let r := fridaTransactionBegin g
  if r.1 = 0 then (⟨TxState.started⟩, r.2) else (⟨TxState.invalid⟩, r.2)

/-- DetourTransaction::Commit: rejected unless the state is Started or
Failed; on underlying success the state becomes Committed, on underlying
failure the state is left unchanged. -/
def commit (tx : DTx) (g : FridaState) : Bool × DTx × FridaState :=
  if tx.state ≠ TxState.started ∧ tx.state ≠ TxState.failed then (false, tx, g)
  else
    let r := fridaTransactionCommit g
    if r.1 ≠ 0 then (false, tx, r.2)
    else (true, ⟨TxState.committed⟩, r.2)

/-- DetourTransaction::Abort: rejected unless the state is Started or
Failed; on underlying failure the state becomes Failed, on success
Aborted. -/
def abort (tx : DTx) (g : FridaState) : Bool × DTx × FridaState :=
  if tx.state ≠ TxState.started ∧ tx.state ≠ TxState.failed then (false, tx, g)
  else
    let r := fridaTransactionAbort g
    if r.1 ≠ 0 then (false, ⟨TxState.failed⟩, r.2)
    else (true, ⟨TxState.aborted⟩, r.2)

/-- DetourTransaction destructor: aborts if and only if the transaction is
dangling in the Started state. -/
def dtor (tx : DTx) (g : FridaState) : FridaState :=
  if tx.state = TxState.started then (abort tx g).2.2 else g

end Frida

namespace NativeTx

/-- DetourTransaction constructor over the native primitives. -/
def mkTx (s : NativeState) : DTx × NativeState :=
  let r := nativeTransactionBegin s
  if r.1 = 0 then (⟨TxState.started⟩, r.2) else (⟨TxState.invalid⟩, r.2)

/-- DetourTransaction::Abort over the native primitives. -/
def abort (tx : DTx) (s : NativeState) : Bool × DTx × NativeState :=
  if tx.state ≠ TxState.started ∧ tx.state ≠ TxState.failed then (false, tx, s)
  else
    let r := nativeTransactionAbort s
    if r.1 ≠ 0 then (false, ⟨TxState.failed⟩, r.2)
    else (true, ⟨TxState.aborted⟩, r.2)

/-- DetourTransaction destructor over the native primitives. -/
def dtor (tx : DTx) (s : NativeState) : DTx × NativeState :=
  if tx.state = TxState.started then
    let r := abort tx s
    (r.2.1, r.2.2)
  else (tx, s)

end NativeTx

/-- All-zero memory, used as the initial process memory in concrete runs. -/
def memZero : Mem := fun _ => 0

/-- A clean native-mode initial state. -/
def nativeInit : NativeState :=
  { inTransaction := false, trampolines := [], memory := memZero, nextAlloc := 0x100000 }

/-- A Frida-mode global state with a transaction already open. -/
def gOpen : FridaState := { inTransaction := true, hookCount := 0 }

/-- A native-mode state with a transaction already open. -/
def sOpen : NativeState := { nativeInit with inTransaction := true }

/-! ## C1 — Attach/Detach round trip on the byte window -/

/-- C1: the claim states that a successful Attach followed immediately by
Detach restores the byte sequence at the target to its pre-Attach value.
Evaluating the native-mode code at target 0x1000 (original window all
zeroes) and detour 0x2000: both calls succeed, but after the round trip the
16-byte window still holds the detour jump sequence, not the original
zeroes — DetourDetach never writes the original bytes back (the source
admits in comments that they were never saved). -/
theorem C1_round_trip_leaves_patch :
    (nativeTransactionBegin nativeInit).1 = 0 ∧
    readBytes nativeInit.memory 0x1000 16 = List.replicate 16 0 ∧
    (let s1 := (nativeTransactionBegin nativeInit).2
     let a := nativeDetourAttach s1 0x1000 0x2000
     let d := nativeDetourDetach a.2.1 a.2.2 0x2000
     a.1 = 0 ∧ d.1 = 0 ∧
     readBytes d.2.1.memory 0x1000 16 = jumpSeq 0x2000 ∧
     jumpSeq 0x2000 ≠ List.replicate 16 0) := by decide

/-! ## C2 — at most one open transaction -/

/-- C2: while a transaction is open (the global in-transaction flag is set),
a second DetourTransactionBegin fails immediately with -1 and changes
nothing, in both the compiled Frida-Gadget mode and the native mode; at the
DetourTransaction class level the second object is left Invalid and the
global state is untouched, so the first transaction's Started state is
undisturbed. -/
theorem C2_second_begin_rejected (g : FridaState) (s : NativeState)
    (hg : g.inTransaction = true) (hs : s.inTransaction = true) :
    fridaTransactionBegin g = (-1, g) ∧
    Frida.mkTx g = (⟨TxState.invalid⟩, g) ∧
    (nativeTransactionBegin s).1 = -1 ∧
    (nativeTransactionBegin s).2 = s := by
  simp [fridaTransactionBegin, Frida.mkTx, nativeTransactionBegin, hg, hs]

/-- Witness for C2 at a concrete open state. -/
theorem C2_second_begin_rejected_witness :
    gOpen.inTransaction = true ∧ sOpen.inTransaction = true ∧
    (fridaTransactionBegin gOpen = (-1, gOpen) ∧
     Frida.mkTx gOpen = (⟨TxState.invalid⟩, gOpen) ∧
     (nativeTransactionBegin sOpen).1 = -1 ∧
     (nativeTransactionBegin sOpen).2 = sOpen) :=
  ⟨rfl, rfl, C2_second_begin_rejected gOpen sOpen rfl rfl⟩

/-! ## C3 — destructor auto-abort of a dangling transaction -/

/-- C3: the claim states that a Started transaction destroyed without an
explicit Commit or Abort is auto-aborted so that no hook queued inside it
remains installed.  Evaluating the native-mode code: a transaction is
begun, one hook is attached at target 0x1000 with detour 0x2000, and the
destructor runs.  The destructor does abort (final state Aborted, pending
trampolines cleared, transaction closed), but the detour patch written by
DetourAttach is still present in the target's 16-byte window — the abort
path frees trampolines and never restores the target's original bytes, so
the hook remains installed. -/
theorem C3_auto_abort_leaves_hook_installed :
    (let t1 := NativeTx.mkTx nativeInit
     let a := nativeDetourAttach t1.2 0x1000 0x2000
     let fin := NativeTx.dtor t1.1 a.2.1
     t1.1.state = TxState.started ∧ a.1 = 0 ∧
     fin.1.state = TxState.aborted ∧
     fin.2.trampolines = [] ∧
     fin.2.inTransaction = false ∧
     readBytes fin.2.memory 0x1000 16 = jumpSeq 0x2000 ∧
     jumpSeq 0x2000 ≠ readBytes nativeInit.memory 0x1000 16) := by decide

/-! ## C4 — is the Failed state terminal? -/

/-- C4 counterexample: a transaction that entered Failed can still
transition.  Trace (Frida mode): a transaction starts; the raw extern-C
DetourTransactionCommit closes the global transaction behind its back; its
Abort then fails, putting it in Failed; a raw DetourTransactionBegin
reopens the global transaction; calling Abort on the Failed transaction now
passes the guard (which admits Started or Failed) and succeeds, moving the
transaction from Failed to Aborted — so Failed is not terminal. -/
theorem C4_failed_not_terminal_counterexample :
    (let g0 : FridaState := ⟨false, 0⟩
     let t1 := Frida.mkTx g0
     let r1 := fridaTransactionCommit t1.2
     let r2 := Frida.abort t1.1 r1.2
     let r3 := fridaTransactionBegin r2.2.2
     let r4 := Frida.abort r2.2.1 r3.2
     t1.1.state = TxState.started ∧
     r2.1 = false ∧ r2.2.1.state = TxState.failed ∧
     r4.1 = true ∧ r4.2.1.state = TxState.aborted) := by decide

/-- C4 amended: Failed is not terminal.  Commit and Abort accept a Failed
transaction (the guard admits Started or Failed); the retried operation
succeeds exactly when the underlying global transaction flag is set (for
example after a subsequent Begin), moving the state to Committed or
Aborted respectively; when the underlying operation fails again the state
remains Failed. -/
theorem C4_failed_state_retry (g : FridaState) (tx : DTx)
    (h : tx.state = TxState.failed) :
    (Frida.commit tx g).1 = g.inTransaction ∧
    (Frida.commit tx g).2.1.state =
      (if g.inTransaction then TxState.committed else TxState.failed) ∧
    (Frida.abort tx g).1 = g.inTransaction ∧
    (Frida.abort tx g).2.1.state =
      (if g.inTransaction then TxState.aborted else TxState.failed) := by
  cases hg : g.inTransaction <;>
    simp [Frida.commit, Frida.abort, fridaTransactionCommit, fridaTransactionAbort, h, hg]

/-- Witness for the amended C4 at a concrete Failed transaction with the
global flag set. -/
theorem C4_failed_state_retry_witness :
    (DTx.mk TxState.failed).state = TxState.failed ∧
    ((Frida.commit ⟨TxState.failed⟩ gOpen).1 = gOpen.inTransaction ∧
     (Frida.commit ⟨TxState.failed⟩ gOpen).2.1.state =
       (if gOpen.inTransaction then TxState.committed else TxState.failed) ∧
     (Frida.abort ⟨TxState.failed⟩ gOpen).1 = gOpen.inTransaction ∧
     (Frida.abort ⟨TxState.failed⟩ gOpen).2.1.state =
       (if gOpen.inTransaction then TxState.aborted else TxState.failed)) :=
  ⟨rfl, C4_failed_state_retry gOpen ⟨TxState.failed⟩ rfl⟩

/-! ## GameStateHook (GameStateHook.hpp)

The vtable lifecycle hook with three slots (OnEnter/OnUpdate/OnExit).
Function pointers are addresses; invoking an original handler is modelled
by passing in the Bool result the external handler would return.  The only
exception source inside SwapVFuncs is the MemoryProtection constructor,
which throws before any slot is written, so slot rewriting is
all-or-nothing and is modelled by a protection-success flag. -/

/-- GameStateHook::FuncHook: the per-slot state.  The constructor sets
shouldExecute to true and orig to null. -/
structure FuncHook where
  shouldExecute : Bool
  detour : Ptr
  orig : Ptr
deriving DecidableEq, Repr

/-- A fresh FuncHook as built by the FuncHook constructor. -/
def FuncHook.mkNew (aDetour : Ptr) : FuncHook :=
  { shouldExecute := true, detour := aDetour, orig := 0 }

/-- The three vtable slots of interest (vtbl[3], vtbl[4], vtbl[5]). -/
structure VTbl where
  slot3 : Ptr
  slot4 : Ptr
  slot5 : Ptr
deriving DecidableEq, Repr

/-- GameStateHook: m_isAttached and the three per-slot FuncHooks. -/
structure GameStateHook where
  isAttached : Bool
  onEnter : FuncHook
  onUpdate : FuncHook
  onExit : FuncHook
deriving DecidableEq, Repr

/-- The GameStateHook constructor. -/
def GameStateHook.mkNew (aOnEnter aOnUpdate aOnExit : Ptr) : GameStateHook :=
  { isAttached := false,
    onEnter := FuncHook.mkNew aOnEnter,
    onUpdate := FuncHook.mkNew aOnUpdate,
    onExit := FuncHook.mkNew aOnExit }

/-- GameStateHook::AttachAt: snapshots the three original slot values into
the per-slot orig fields, then swaps the slots to the detours.  protOk
models whether the MemoryProtection change inside SwapVFuncs succeeds; on
failure the slots are untouched and false is returned, but the orig fields
have already been overwritten.  Note that shouldExecute is not touched. -/
def GameStateHook.attachAt (h : GameStateHook) (v : VTbl) (protOk : Bool) :
    Bool × GameStateHook × VTbl :=
  let h1 : GameStateHook :=
    { h with
      onEnter := { h.onEnter with orig := v.slot3 },
      onUpdate := { h.onUpdate with orig := v.slot4 },
      onExit := { h.onExit with orig := v.slot5 } }
  if protOk then
    (true, h1, ⟨h1.onEnter.detour, h1.onUpdate.detour, h1.onExit.detour⟩)
  else (false, h1, v)

/-- GameStateHook::DetachAt: swaps the three slots back to the stored
originals. -/
def GameStateHook.detachAt (h : GameStateHook) (v : VTbl) (protOk : Bool) :
    Bool × GameStateHook × VTbl :=
  if protOk then (true, h, ⟨h.onEnter.orig, h.onUpdate.orig, h.onExit.orig⟩)
  else (false, h, v)

/-- The shared body of the three wrapped lifecycle calls on one FuncHook
slot: if shouldExecute is set and an original handler exists, the original
is invoked (origResult is the value it returns), shouldExecute becomes the
negation of that result, and the result is forwarded; otherwise the call
returns true and changes nothing. -/
def FuncHook.call (f : FuncHook) (origResult : Bool) : Bool × FuncHook :=
  if f.shouldExecute ∧ f.orig ≠ 0 then
    (origResult, { f with shouldExecute := !origResult })
  else (true, f)

/-- GameStateHook::OnEnter. -/
def GameStateHook.onEnterCall (h : GameStateHook) (origResult : Bool) :
    Bool × GameStateHook :=
  let r := h.onEnter.call origResult
  (r.1, { h with onEnter := r.2 })

/-- GameStateHook::OnUpdate. -/
def GameStateHook.onUpdateCall (h : GameStateHook) (origResult : Bool) :
    Bool × GameStateHook :=
  let r := h.onUpdate.call origResult
  (r.1, { h with onUpdate := r.2 })

/-- GameStateHook::OnExit. -/
def GameStateHook.onExitCall (h : GameStateHook) (origResult : Bool) :
    Bool × GameStateHook :=
  let r := h.onExit.call origResult
  (r.1, { h with onExit := r.2 })

/-- A wrapped call whose guard is not met returns true and leaves the slot
unchanged. -/
theorem FuncHook.call_skip (f : FuncHook) (r : Bool)
    (hyp : ¬(f.shouldExecute = true ∧ f.orig ≠ 0)) : f.call r = (true, f) := by
  simp only [FuncHook.call]
  rw [if_neg hyp]

/-- A wrapped call returns false only by forwarding a live original
handler's false result. -/
theorem FuncHook.call_false (f : FuncHook) (r : Bool)
    (hyp : (f.call r).1 = false) :
    f.shouldExecute = true ∧ f.orig ≠ 0 ∧ r = false := by
  by_cases hg : f.shouldExecute = true ∧ f.orig ≠ 0
  · refine ⟨hg.1, hg.2, ?_⟩
    simpa [FuncHook.call, hg] using hyp
  · rw [FuncHook.call_skip f r hg] at hyp
    simp at hyp

/-! ## C5 — suppression after a terminal result and re-attach -/

/-- C5 counterexample: the claim states that re-attaching resets the slot's
shouldExecute flag so the original runs again.  Trace: a hook with detours
0xE/0xF/0x10 attaches to a vtable with originals 0xA/0xB/0xC; the OnEnter
original returns a terminal true, clearing shouldExecute; AttachAt is
called again (successfully) — yet shouldExecute is still false and a
subsequent OnEnter call still skips the original (it returns true
unchanged even though the original would have returned false).  AttachAt
never writes shouldExecute, so re-attaching does not reset the
suppression. -/
theorem C5_reattach_does_not_reset_counterexample :
    (let h0 := GameStateHook.mkNew 0xE 0xF 0x10
     let v0 : VTbl := ⟨0xA, 0xB, 0xC⟩
     let a1 := h0.attachAt v0 true
     let c1 := a1.2.1.onEnterCall true
     let a2 := c1.2.attachAt a1.2.2 true
     let c2 := a2.2.1.onEnterCall false
     a1.1 = true ∧ c1.1 = true ∧
     c1.2.onEnter.shouldExecute = false ∧
     a2.1 = true ∧
     a2.2.1.onEnter.shouldExecute = false ∧
     a2.2.1.onEnter.orig ≠ 0 ∧
     c2.1 = true ∧ c2.2 = a2.2.1) := by decide

/-- C5 amended: after the original handler of a slot returns a terminal
(true) result once, the slot's shouldExecute flag is cleared and every
subsequent wrapped call on that slot skips the original handler and
returns true; AttachAt does not reset the flag, so the suppression
persists even across re-attachment (it lasts for the lifetime of the hook
object).  Stated for all three slots. -/
theorem C5_terminal_suppression_persists (h : GameStateHook) (v : VTbl)
    (p r : Bool)
    (he : h.onEnter.shouldExecute = false)
    (hu : h.onUpdate.shouldExecute = false)
    (hx : h.onExit.shouldExecute = false) :
    h.onEnterCall r = (true, h) ∧
    h.onUpdateCall r = (true, h) ∧
    h.onExitCall r = (true, h) ∧
    ((h.attachAt v p).2.1.onEnter.shouldExecute = false ∧
     (h.attachAt v p).2.1.onUpdate.shouldExecute = false ∧
     (h.attachAt v p).2.1.onExit.shouldExecute = false) ∧
    (∀ g : GameStateHook,
      g.onEnter.shouldExecute = true → g.onEnter.orig ≠ 0 →
      (g.onEnterCall true).2.onEnter.shouldExecute = false) := by
  refine ⟨?_, ?_, ?_, ?_, ?_⟩
  · simp [GameStateHook.onEnterCall, FuncHook.call, he]
  · simp [GameStateHook.onUpdateCall, FuncHook.call, hu]
  · simp [GameStateHook.onExitCall, FuncHook.call, hx]
  · cases p <;>
      simp [GameStateHook.attachAt, he, hu, hx]
  · intro g hg ho
    simp [GameStateHook.onEnterCall, FuncHook.call, hg, ho]

/-- Witness for the amended C5 at a concrete suppressed hook. -/
theorem C5_terminal_suppression_persists_witness :
    (let h : GameStateHook :=
       { isAttached := false,
         onEnter := ⟨false, 0xE, 0xA⟩,
         onUpdate := ⟨false, 0xF, 0xB⟩,
         onExit := ⟨false, 0x10, 0xC⟩ }
     let v : VTbl := ⟨0xA, 0xB, 0xC⟩
     h.onEnter.shouldExecute = false ∧
     (h.onEnterCall false = (true, h) ∧
      h.onUpdateCall false = (true, h) ∧
      h.onExitCall false = (true, h) ∧
      ((h.attachAt v true).2.1.onEnter.shouldExecute = false ∧
       (h.attachAt v true).2.1.onUpdate.shouldExecute = false ∧
       (h.attachAt v true).2.1.onExit.shouldExecute = false) ∧
      (∀ g : GameStateHook,
        g.onEnter.shouldExecute = true → g.onEnter.orig ≠ 0 →
        (g.onEnterCall true).2.onEnter.shouldExecute = false))) :=
  ⟨rfl, C5_terminal_suppression_persists _ _ true false rfl rfl rfl⟩

/-! ## C10 — a skipped wrapped call returns true -/

/-- C10: whenever a wrapped lifecycle call skips the original handler —
because the slot's shouldExecute flag is false or no original handler was
captured — the wrapper returns true and leaves the hook unchanged; a false
return can only arise by forwarding a live original handler's false
result.  Stated for all three of OnEnter, OnUpdate and OnExit. -/
theorem C10_skip_returns_true (h : GameStateHook) (r : Bool) :
    (¬(h.onEnter.shouldExecute = true ∧ h.onEnter.orig ≠ 0) →
      h.onEnterCall r = (true, h)) ∧
    ((h.onEnterCall r).1 = false →
      h.onEnter.shouldExecute = true ∧ h.onEnter.orig ≠ 0 ∧ r = false) ∧
    (¬(h.onUpdate.shouldExecute = true ∧ h.onUpdate.orig ≠ 0) →
      h.onUpdateCall r = (true, h)) ∧
    ((h.onUpdateCall r).1 = false →
      h.onUpdate.shouldExecute = true ∧ h.onUpdate.orig ≠ 0 ∧ r = false) ∧
    (¬(h.onExit.shouldExecute = true ∧ h.onExit.orig ≠ 0) →
      h.onExitCall r = (true, h)) ∧
    ((h.onExitCall r).1 = false →
      h.onExit.shouldExecute = true ∧ h.onExit.orig ≠ 0 ∧ r = false) := by
  refine ⟨?_, ?_, ?_, ?_, ?_, ?_⟩
  · intro hyp
    simp [GameStateHook.onEnterCall, FuncHook.call_skip h.onEnter r hyp]
  · intro hyp
    exact FuncHook.call_false h.onEnter r (by simpa [GameStateHook.onEnterCall] using hyp)
  · intro hyp
    simp [GameStateHook.onUpdateCall, FuncHook.call_skip h.onUpdate r hyp]
  · intro hyp
    exact FuncHook.call_false h.onUpdate r (by simpa [GameStateHook.onUpdateCall] using hyp)
  · intro hyp
    simp [GameStateHook.onExitCall, FuncHook.call_skip h.onExit r hyp]
  · intro hyp
    exact FuncHook.call_false h.onExit r (by simpa [GameStateHook.onExitCall] using hyp)

/-- Witness for C10 at a concrete hook with no captured originals. -/
theorem C10_skip_returns_true_witness :
    (let h := GameStateHook.mkNew 0xE 0xF 0x10
     (¬(h.onEnter.shouldExecute = true ∧ h.onEnter.orig ≠ 0) →
       h.onEnterCall false = (true, h)) ∧
     ((h.onEnterCall false).1 = false →
       h.onEnter.shouldExecute = true ∧ h.onEnter.orig ≠ 0 ∧ false = false) ∧
     (¬(h.onUpdate.shouldExecute = true ∧ h.onUpdate.orig ≠ 0) →
       h.onUpdateCall false = (true, h)) ∧
     ((h.onUpdateCall false).1 = false →
       h.onUpdate.shouldExecute = true ∧ h.onUpdate.orig ≠ 0 ∧ false = false) ∧
     (¬(h.onExit.shouldExecute = true ∧ h.onExit.orig ≠ 0) →
       h.onExitCall false = (true, h)) ∧
     ((h.onExitCall false).1 = false →
       h.onExit.shouldExecute = true ∧ h.onExit.orig ≠ 0 ∧ false = false)) :=
  C10_skip_returns_true (GameStateHook.mkNew 0xE 0xF 0x10) false

/-! ## HookingSystem (Systems/HookingSystem.cpp)

The owner-keyed hook registry, over the compiled (Frida Gadget mode)
detour primitives.  Owners are identified by numbers; the multimap is a
list of (owner, Item) pairs in insertion order; the caller-supplied
original-pointer slots (void**) live in a slot store from slot address to
stored value. -/

/-- Modelled from the spec: the Hook template wrapper of Hook.hpp, which is
not among the repository sources (only its callers in
Systems/HookingSystem.cpp are).  Per spec §4.3, Attach(target, detour)
produces the original entry point: the wrapper keeps an address field
initialized to the target, passes that field by address to DetourAttach /
DetourDetach (which may rewrite it), and GetAddress returns its current
value — the resolved original entry point after a successful attach. -/
structure Hook where
  address : Ptr
  detour : Ptr
deriving DecidableEq, Repr

/-- Hook::Attach over the Frida-mode DetourAttach. -/
def Hook.attach (hk : Hook) (f : FridaState) : Int × FridaState × Hook :=
  let r := fridaDetourAttach f hk.address hk.detour
  (r.1, r.2.1, { hk with address := r.2.2 })

/-- Hook::Detach over the Frida-mode DetourDetach. -/
def Hook.detach (hk : Hook) (f : FridaState) : Int × FridaState × Hook :=
  let r := fridaDetourDetach f hk.address hk.detour
  (r.1, r.2.1, { hk with address := r.2.2 })

/-- Hook::GetAddress. -/
def Hook.getAddress (hk : Hook) : Ptr := hk.address

/-- HookingSystem::Item: target, optional symbol, the caller's original
slot (a void** address, 0 = null) and the wrapped hook. -/
structure Item where
  target : Ptr
  symbol : Option String
  original : Ptr
  hook : Hook
deriving DecidableEq, Repr

/-- The registry world: the detour globals, m_hooks and the slot store. -/
structure HSWorld where
  frida : FridaState
  hooks : List (Nat × Item)
  slots : List (Ptr × Ptr)
deriving DecidableEq, Repr

/-- Write a value to a caller slot (assignment through a void**). -/
def setSlot : List (Ptr × Ptr) → Ptr → Ptr → List (Ptr × Ptr)
  | [], a, v => [(a, v)]
  | (x, u) :: rest, a, v =>
    if x = a then (a, v) :: rest else (x, u) :: setSlot rest a v

/-- Read a caller slot (dereference of a void**). -/
def getSlot : List (Ptr × Ptr) → Ptr → Ptr
  | [], _ => 0
  | (x, u) :: rest, a => if x = a then u else getSlot rest a

/-- The match condition of HookingSystem::Detach: the item's target equals
the requested target, or for a symbol-based item with a non-null original
slot, the resolved original stored in that slot equals the requested
target. -/
def itemMatches (slots : List (Ptr × Ptr)) (it : Item) (aTarget : Ptr) : Bool :=
  it.target == aTarget ||
    (it.symbol.isSome && it.original != 0 && getSlot slots it.original == aTarget)

/-- HookingSystem::Attach (address-based overload).  Opens a transaction,
attaches the hook, commits; on success writes the resolved original
address into the caller's slot (when the slot pointer is non-null) and
records the item; on any failure returns false.  The transaction
destructor runs at scope exit on every path. -/
def hsAttach (w : HSWorld) (owner : Nat) (aTarget aDetour aOriginal : Ptr) :
    Bool × HSWorld :=
  let t := Frida.mkTx w.frida
  let item : Item :=
    { target := aTarget, symbol := none, original := aOriginal, hook := ⟨aTarget, aDetour⟩ }
  let r := item.hook.attach t.2
  if r.1 ≠ 0 then
    (false, { w with frida := Frida.dtor t.1 r.2.1 })
  else
    let item1 : Item := { item with hook := r.2.2 }
    let c := Frida.commit t.1 r.2.1
    if c.1 then
      (true,
        { frida := Frida.dtor c.2.1 c.2.2,
          hooks := w.hooks ++ [(owner, item1)],
          slots :=
            if aOriginal ≠ 0 then setSlot w.slots aOriginal item1.hook.getAddress
            else w.slots })
    else
      (false, { w with frida := Frida.dtor c.2.1 c.2.2 })

/-- HookingSystem::QueueForDetach.  For a symbol-based item the fishhook
rebind_symbols call (third-party code outside this repository) is modelled
as succeeding; for an address-based item the wrapped hook is detached
through DetourDetach. -/
def queueForDetach (f : FridaState) (it : Item) : Bool × FridaState :=
  match it.symbol with
  | some _ => (true, f)
  | none =>
    let r := it.hook.detach f
    (r.1 == 0, r.2.1)

/-- The first loop of HookingSystem::Detach over the owner's items:
computes hasHook, the count of successfully queued detaches, and the
resulting detour globals. -/
def detachScan (slots : List (Ptr × Ptr)) (aTarget : Ptr) :
    FridaState → List Item → Bool × Nat × FridaState
  | f, [] => (false, 0, f)
  | f, it :: rest =>
    if itemMatches slots it aTarget then
      let q := queueForDetach f it
      let r := detachScan slots aTarget q.2 rest
      (true, (if q.1 then 1 else 0) + r.2.1, r.2.2)
    else detachScan slots aTarget f rest

/-- The erase loop of HookingSystem::Detach: removes the owner's matching
entries and nulls their original slots, sequentially. -/
def eraseLoop (owner : Nat) (aTarget : Ptr) :
    List (Nat × Item) → List (Ptr × Ptr) → List (Nat × Item) × List (Ptr × Ptr)
  | [], ss => ([], ss)
  | (o, it) :: rest, ss =>
    if o == owner && itemMatches ss it aTarget then
      let ss' := if it.original ≠ 0 then setSlot ss it.original 0 else ss
      eraseLoop owner aTarget rest ss'
    else
      let r := eraseLoop owner aTarget rest ss
      ((o, it) :: r.1, r.2)

/-- HookingSystem::Detach.  Scans the owner's items for matches, queueing
each match for detach; with no match or no successful queue it returns
early; otherwise it commits and erases the matched records, nulling their
slots.  The returned value is the boolean count > 0 in every path. -/
def hsDetach (w : HSWorld) (owner : Nat) (aTarget : Ptr) : Bool × HSWorld :=
  let t := Frida.mkTx w.frida
  let own := (w.hooks.filter (fun p => p.1 == owner)).map Prod.snd
  let s := detachScan w.slots aTarget t.2 own
  if !s.1 then
    (s.2.1 != 0, { w with frida := Frida.dtor t.1 s.2.2 })
  else if s.2.1 == 0 then
    (s.2.1 != 0, { w with frida := Frida.dtor t.1 s.2.2 })
  else
    let c := Frida.commit t.1 s.2.2
    if c.1 then
      let e := eraseLoop owner aTarget w.hooks w.slots
      (s.2.1 != 0, { frida := Frida.dtor c.2.1 c.2.2, hooks := e.1, slots := e.2 })
    else
      (s.2.1 != 0, { w with frida := Frida.dtor c.2.1 c.2.2 })

/-- The loop of HookingSystem::Shutdown: queues every record of every
owner for detach and counts the successes. -/
def shutdownScan : FridaState → List (Nat × Item) → Nat × FridaState
  | f, [] => (0, f)
  | f, (_, it) :: rest =>
    let q := queueForDetach f it
    let r := shutdownScan q.2 rest
    ((if q.1 then 1 else 0) + r.1, r.2)

/-- HookingSystem::Shutdown: one final transaction, every record queued
for detach regardless of owner, commit attempted, and m_hooks cleared
unconditionally. -/
def hsShutdown (w : HSWorld) : HSWorld :=
  let t := Frida.mkTx w.frida
  let s := shutdownScan t.2 w.hooks
  let c := Frida.commit t.1 s.2
  { frida := Frida.dtor c.2.1 c.2.2, hooks := [], slots := w.slots }

/-- An empty registry world with no open transaction. -/
def w0 : HSWorld := { frida := ⟨false, 0⟩, hooks := [], slots := [] }

/-- Writing a slot and reading it back yields the written value. -/
theorem getSlot_setSlot (ss : List (Ptr × Ptr)) (a v : Ptr) :
    getSlot (setSlot ss a v) a = v := by
  induction ss with
  | nil => simp [setSlot, getSlot]
  | cons p rest ih =>
    by_cases h : p.1 = a
    · simp [setSlot, getSlot, h]
    · simp [setSlot, getSlot, h, ih]

/-- Scanning a list with no matching item finds nothing, counts nothing
and leaves the detour globals alone. -/
theorem detachScan_no_match (slots : List (Ptr × Ptr)) (aTarget : Ptr)
    (f : FridaState) (l : List Item)
    (h : ∀ it ∈ l, itemMatches slots it aTarget = false) :
    detachScan slots aTarget f l = (false, 0, f) := by
  induction l with
  | nil => simp [detachScan]
  | cons it rest ih =>
    have h1 : itemMatches slots it aTarget = false := h it (by simp)
    have h2 : ∀ u ∈ rest, itemMatches slots u aTarget = false :=
      fun u hu => h u (by simp [hu])
    simp [detachScan, h1, ih h2]

/-- The shutdown loop counts at most one success per record. -/
theorem shutdownScan_le (f : FridaState) (l : List (Nat × Item)) :
    (shutdownScan f l).1 ≤ l.length := by
  induction l generalizing f with
  | nil => simp [shutdownScan]
  | cons p rest ih =>
    simp only [shutdownScan, List.length_cons]
    have := ih (queueForDetach f p.2).2
    by_cases hq : (queueForDetach f p.2).1 <;> simp [hq] <;> omega

/-- In the compiled Frida Gadget mode, Hook::Attach never rewrites the
address field: the original pointer is intentionally preserved. -/
theorem hook_attach_preserves_address (hk : Hook) (f : FridaState) :
    (hk.attach f).2.2.address = hk.address := by
  unfold Hook.attach fridaDetourAttach
  by_cases h1 : f.inTransaction <;>
    by_cases h2 : hk.address = 0 ∨ hk.detour = 0 <;>
      simp [h1, h2]

/-! ## C6 — Attach writes the out-slot only on success -/

/-- C6: the address-based HookingSystem::Attach leaves the caller's
original-out slot and the registry untouched whenever it returns failure;
only on a successful attach-and-commit does it append a record for the
owner and write the resolved original address of that record into the
(non-null) caller slot. -/
theorem C6_attach_writes_slot_only_on_success (w : HSWorld) (owner : Nat)
    (aTarget aDetour aOriginal : Ptr) :
    ((hsAttach w owner aTarget aDetour aOriginal).1 = false →
      (hsAttach w owner aTarget aDetour aOriginal).2.slots = w.slots ∧
      (hsAttach w owner aTarget aDetour aOriginal).2.hooks = w.hooks) ∧
    ((hsAttach w owner aTarget aDetour aOriginal).1 = true →
      ∃ it : Item,
        (hsAttach w owner aTarget aDetour aOriginal).2.hooks =
          w.hooks ++ [(owner, it)] ∧
        (aOriginal ≠ 0 →
          (hsAttach w owner aTarget aDetour aOriginal).2.slots =
            setSlot w.slots aOriginal it.hook.getAddress)) := by
  unfold hsAttach
  dsimp only
  split
  · exact ⟨fun _ => ⟨rfl, rfl⟩, fun h => by simp at h⟩
  · split
    · refine ⟨fun h => by simp at h, fun _ => ⟨_, rfl, fun ho => ?_⟩⟩
      simp only [if_pos ho]
    · exact ⟨fun _ => ⟨rfl, rfl⟩, fun h => by simp at h⟩

/-- Witness for C6: at a clean world the attach succeeds and both the
failure and success implications are exercised. -/
theorem C6_attach_writes_slot_only_on_success_witness :
    ((hsAttach w0 1 0x1000 0x2000 0x500).1 = false →
      (hsAttach w0 1 0x1000 0x2000 0x500).2.slots = w0.slots ∧
      (hsAttach w0 1 0x1000 0x2000 0x500).2.hooks = w0.hooks) ∧
    ((hsAttach w0 1 0x1000 0x2000 0x500).1 = true →
      ∃ it : Item,
        (hsAttach w0 1 0x1000 0x2000 0x500).2.hooks = w0.hooks ++ [(1, it)] ∧
        ((0x500 : Ptr) ≠ 0 →
          (hsAttach w0 1 0x1000 0x2000 0x500).2.slots =
            setSlot w0.slots 0x500 it.hook.getAddress)) :=
  C6_attach_writes_slot_only_on_success w0 1 0x1000 0x2000 0x500

/-! ## C7 — the reported original entry point -/

/-- C7 counterexample: the claim states that for a successful Attach with
distinct non-null target and detour the reported original differs from
both.  At target 0x1000 and detour 0x2000 the attach succeeds, yet the
value written into the caller's slot is 0x1000 — exactly the target
address.  In the compiled Frida Gadget mode DetourAttach intentionally
leaves *ppPointer untouched (Frida performs the redirection externally),
so the resolved original equals the target, never a trampoline. -/
theorem C7_original_equals_target_counterexample :
    (hsAttach w0 1 0x1000 0x2000 0x500).1 = true ∧
    getSlot (hsAttach w0 1 0x1000 0x2000 0x500).2.slots 0x500 = 0x1000 ∧
    ¬getSlot (hsAttach w0 1 0x1000 0x2000 0x500).2.slots 0x500 ≠ 0x1000 := by
  decide

/-- C7 amended: for every successful address-based Attach with a non-null
out-slot, the original entry point reported to the caller equals the
target address (the compiled Frida Gadget mode preserves the pointer and
delegates the actual redirection to Frida); consequently it differs from
the detour address whenever target and detour are distinct. -/
theorem C7_attach_reports_target (w : HSWorld) (owner : Nat)
    (aTarget aDetour aOriginal : Ptr) (ho : aOriginal ≠ 0)
    (hs : (hsAttach w owner aTarget aDetour aOriginal).1 = true) :
    getSlot (hsAttach w owner aTarget aDetour aOriginal).2.slots aOriginal =
      aTarget ∧
    (aTarget ≠ aDetour →
      getSlot (hsAttach w owner aTarget aDetour aOriginal).2.slots aOriginal ≠
        aDetour) := by
  have key :
      getSlot (hsAttach w owner aTarget aDetour aOriginal).2.slots aOriginal =
        aTarget := by
    unfold hsAttach at hs ⊢
    dsimp only at hs ⊢
    split
    · next h1 =>
      rw [if_pos h1] at hs
      simp at hs
    · next h1 =>
      rw [if_neg h1] at hs
      split
      · simp only [Hook.getAddress, hook_attach_preserves_address]
        exact getSlot_setSlot w.slots aOriginal aTarget
      · next h2 =>
        rw [if_neg h2] at hs
        simp at hs
  exact ⟨key, fun hne => by rw [key]; exact fun habs => hne habs⟩

/-- Witness for the amended C7 at a clean world. -/
theorem C7_attach_reports_target_witness :
    (0x500 : Ptr) ≠ 0 ∧
    (hsAttach w0 1 0x1000 0x2000 0x500).1 = true ∧
    (getSlot (hsAttach w0 1 0x1000 0x2000 0x500).2.slots 0x500 = 0x1000 ∧
     ((0x1000 : Ptr) ≠ 0x2000 →
       getSlot (hsAttach w0 1 0x1000 0x2000 0x500).2.slots 0x500 ≠ 0x2000)) :=
  ⟨by decide, by decide, C7_attach_reports_target w0 1 0x1000 0x2000 0x500 (by decide) (by decide)⟩

/-! ## C8 — what Detach returns -/

/-- Two hooks of owner 1 at the same target 0x1000. -/
def itemA : Item := { target := 0x1000, symbol := none, original := 0, hook := ⟨0x1000, 0x2000⟩ }

/-- A second hook of owner 1 at target 0x1000 with another detour. -/
def itemB : Item := { target := 0x1000, symbol := none, original := 0, hook := ⟨0x1000, 0x3000⟩ }

/-- A registry world holding two hooks of owner 1 at target 0x1000. -/
def w2 : HSWorld := { frida := ⟨false, 0⟩, hooks := [(1, itemA), (1, itemB)], slots := [] }

/-- C8 counterexample: the claim states that Detach returns the count of
hooks actually removed.  HookingSystem::Detach returns a bool (count > 0),
not the count: with two hooks of owner 1 at target 0x1000, the call
removes both records, yet the returned value — read as the number the C++
bool converts to — is 1, not 2. -/
theorem C8_returns_bool_not_count_counterexample :
    (hsDetach w2 1 0x1000).1 = true ∧
    (hsDetach w2 1 0x1000).2.hooks = [] ∧
    w2.hooks.length = 2 ∧
    (if (hsDetach w2 1 0x1000).1 then 1 else 0) ≠
      w2.hooks.length - (hsDetach w2 1 0x1000).2.hooks.length := by decide

/-- C8 amended: Detach returns a boolean — whether at least one hook was
removed, not the count.  When the owner has no record matching the target
(directly or through the stored resolved-original pointer) it returns
false (which converts to zero), logs a warning, and leaves the registry's
hook map and the caller slots unchanged. -/
theorem C8_no_match_returns_false (w : HSWorld) (owner : Nat) (aTarget : Ptr)
    (h : ∀ p ∈ w.hooks, p.1 = owner → itemMatches w.slots p.2 aTarget = false) :
    (hsDetach w owner aTarget).1 = false ∧
    (hsDetach w owner aTarget).2.hooks = w.hooks ∧
    (hsDetach w owner aTarget).2.slots = w.slots := by
  have hall : ∀ it ∈ (w.hooks.filter (fun p => p.1 == owner)).map Prod.snd,
      itemMatches w.slots it aTarget = false := by
    intro it hit
    rcases List.mem_map.mp hit with ⟨p, hp, rfl⟩
    rcases List.mem_filter.mp hp with ⟨hmem, hown⟩
    exact h p hmem (by simpa using hown)
  unfold hsDetach
  dsimp only
  rw [detachScan_no_match w.slots aTarget (Frida.mkTx w.frida).2
    ((w.hooks.filter (fun p => p.1 == owner)).map Prod.snd) hall]
  simp

/-- Witness for the amended C8: owner 1 has no hook at 0x4000 in the
two-hook world, so the detach returns false and changes no record. -/
theorem C8_no_match_returns_false_witness :
    (∀ p ∈ w2.hooks, p.1 = 1 → itemMatches w2.slots p.2 0x4000 = false) ∧
    ((hsDetach w2 1 0x4000).1 = false ∧
     (hsDetach w2 1 0x4000).2.hooks = w2.hooks ∧
     (hsDetach w2 1 0x4000).2.slots = w2.slots) :=
  ⟨by decide, C8_no_match_returns_false w2 1 0x4000 (by decide)⟩

/-! ## C9 — Shutdown empties the registry -/

/-- C9: Shutdown queues every remaining record for detach inside one final
transaction and afterwards the registry's hook map is empty — for every
starting world, including those where individual detach calls fail (the
success count only ever reaches at most one per record and failures are
not retried); m_hooks is cleared unconditionally. -/
theorem C9_shutdown_empties_registry (w : HSWorld) :
    (hsShutdown w).hooks = [] ∧
    (shutdownScan (Frida.mkTx w.frida).2 w.hooks).1 ≤ w.hooks.length := by
  constructor
  · unfold hsShutdown
    rfl
  · exact shutdownScan_le _ _

end RED4ext
